import Mathlib

/-!
Verification of the checkpoint/recovery layer of the selfware repository.

Part 1 embeds the versioned checkpoint data model and its delta algebra,
taken from the Rust code installed by `fix_checkpoints.py`
(`CheckpointDelta`, `TaskCheckpoint::compute_delta`,
`TaskCheckpoint::apply_delta`).

Part 2 embeds the session orchestrator of
`system_tests/long_running/test_runner.py` (`MegaTestRunner`,
`CheckpointManager`, `TestMonitor`).

Modelling conventions:
- element types carried opaquely by the code (`Message`, `MemoryEntry`,
  `ToolCallLog`, `ErrorLog`) are represented by `String`; the code never
  inspects them, only moves them;
- `DateTime<Utc>` timestamps and file mtimes are represented by `Int`
  (seconds); the code only compares and copies them;
- Python floats that are merely stored and copied (`tokens_per_minute`,
  `test_pass_rate`, `test_coverage`) are represented by `Rat`, with the
  one arithmetic use (`total_tokens / (elapsed / 60)`) taken as exact
  rational division;
- Rust `Result` / Python exceptions are represented by `Except String`.
-/

namespace Selfware

/-- Task status enum of the checkpoint entity
({Pending, Running, Blocked, Completed, Failed}). -/
inductive TaskStatus where
  | Pending
  | Running
  | Blocked
  | Completed
  | Failed
  deriving DecidableEq, Repr

/-- Opaque message payload; the delta code only slices and appends. -/
abbrev Message := String

/-- Opaque memory entry payload. -/
abbrev MemoryEntry := String

/-- Opaque tool-call log payload. -/
abbrev ToolCallLog := String

/-- Opaque error log payload. -/
abbrev ErrorLog := String

/-- Reference to an external version-control marker (commit id). -/
structure GitCheckpointInfo where
  commit : String
  deriving DecidableEq, Repr

/-- Durable snapshot of one task's progress
(Rust `TaskCheckpoint`, fields used by the delta code). -/
@[ext]
structure TaskCheckpoint where
  task_id : String
  version : Nat
  updated_at : Int
  status : TaskStatus
  current_step : Nat
  current_iteration : Nat
  messages : List Message
  memory_entries : List MemoryEntry
  tool_calls : List ToolCallLog
  errors : List ErrorLog
  estimated_tokens : Nat
  git_checkpoint : Option GitCheckpointInfo
  deriving DecidableEq, Repr

/-- The delta/diff between two checkpoints (Rust `CheckpointDelta`). -/
@[ext]
structure CheckpointDelta where
  task_id : String
  base_version : Nat
  target_version : Nat
  updated_at : Int
  status : Option TaskStatus
  current_step : Option Nat
  current_iteration : Option Nat
  new_messages : List Message
  new_memory_entries : List MemoryEntry
  new_tool_calls : List ToolCallLog
  new_errors : List ErrorLog
  updated_tokens : Option Nat
  git_checkpoint : Option GitCheckpointInfo
  deriving DecidableEq, Repr

/-- `TaskCheckpoint::compute_delta(&self, base)`: differential payload from
`base` to `self`; `None` when the task ids differ; scalar options are
present only when changed; `new_*` vectors hold the slice of `self`'s
vector past `base`'s length when `self`'s is longer, else are empty. -/
def compute_delta (self base : TaskCheckpoint) : Option CheckpointDelta :=
  if self.task_id ≠ base.task_id then
    none
  else
    some {
      task_id := self.task_id
      base_version := base.version
      target_version := self.version
      updated_at := self.updated_at
      status := if self.status ≠ base.status then some self.status else none
      current_step :=
        if self.current_step ≠ base.current_step then some self.current_step else none
      current_iteration :=
        if self.current_iteration ≠ base.current_iteration then
          some self.current_iteration
        else none
      new_messages :=
        if self.messages.length > base.messages.length then
          self.messages.drop base.messages.length
        else []
      new_memory_entries :=
        if self.memory_entries.length > base.memory_entries.length then
          self.memory_entries.drop base.memory_entries.length
        else []
      new_tool_calls :=
        if self.tool_calls.length > base.tool_calls.length then
          self.tool_calls.drop base.tool_calls.length
        else []
      new_errors :=
        if self.errors.length > base.errors.length then
          self.errors.drop base.errors.length
        else []
      updated_tokens :=
        if self.estimated_tokens ≠ base.estimated_tokens then
          some self.estimated_tokens
        else none
      git_checkpoint :=
        if self.git_checkpoint ≠ base.git_checkpoint then self.git_checkpoint else none
    }

/-- `TaskCheckpoint::apply_delta(&mut self, delta)`: errors when the task
ids differ; otherwise produces the mutated checkpoint: version and
updated_at taken from the delta, scalars overwritten only when the
corresponding option is `some`, each `new_*` vector appended to the
matching sequence. Rust mutates in place; the embedding returns the
post-state. The `if let Some` overwrite of a plain scalar is
`Option.getD`; for the optional git marker it is `Option.or`. -/
def apply_delta (self : TaskCheckpoint) (delta : CheckpointDelta) :
    Except String TaskCheckpoint :=
  if self.task_id ≠ delta.task_id then
    Except.error "Delta task ID mismatch"
  else
    Except.ok {
      task_id := self.task_id
      version := delta.target_version
      updated_at := delta.updated_at
      status := delta.status.getD self.status
      current_step := delta.current_step.getD self.current_step
      current_iteration := delta.current_iteration.getD self.current_iteration
      messages := self.messages ++ delta.new_messages
      memory_entries := self.memory_entries ++ delta.new_memory_entries
      tool_calls := self.tool_calls ++ delta.new_tool_calls
      errors := self.errors ++ delta.new_errors
      estimated_tokens := delta.updated_tokens.getD self.estimated_tokens
      git_checkpoint := delta.git_checkpoint.or self.git_checkpoint
    }

/-! ### Part 2: session orchestrator (`system_tests/long_running/test_runner.py`) -/

/-- Real-time session metrics (`SessionMetrics` dataclass). Float-valued
fields are represented by `Rat`. -/
structure SessionMetrics where
  elapsed_seconds : Nat
  total_tokens : Nat
  tokens_per_minute : Rat
  tasks_completed : Nat
  tasks_remaining : Nat
  test_pass_rate : Rat
  lines_of_code : Nat
  test_coverage : Rat
  checkpoint_count : Nat
  errors_encountered : Nat
  phase : String
  status : String
  deriving DecidableEq, Repr

/-- Default field values of the `SessionMetrics` dataclass. -/
def SessionMetrics.init : SessionMetrics :=
  ⟨0, 0, 0, 0, 0, 0, 0, 0, 0, 0, "bootstrap", "running"⟩

/-- The fields of a parsed selfware checkpoint file that
`_update_metrics` consumes (after unwrapping an optional
`payload` envelope, with defaults for absent keys). -/
structure CheckpointFilePayload where
  estimated_tokens : Nat
  current_step : Nat
  errors : List ErrorLog
  git_checkpoint : Option GitCheckpointInfo
  deriving DecidableEq, Repr

/-- Outcome of `_update_metrics`'s attempt to read the latest selfware
checkpoint file: the directory is missing or holds no file; the newest
file exists but `json.load` raises (malformed snapshot, exception caught
and logged at debug level); or the newest file parses, yielding its
payload and the number of checkpoint files found. -/
inductive SnapshotRead where
  | missing
  | malformed
  | parsed (payload : CheckpointFilePayload) (num_files : Nat)
  deriving DecidableEq, Repr

/-- `MegaTestRunner._update_metrics`: records elapsed time and phase,
then reads the latest selfware checkpoint. When the directory is missing
or empty the method returns early (token rate untouched). When the file
parses, token/step/count/error/LoC fields are overwritten from the
payload (LoC only when a git marker is present). When parsing raises,
the exception is caught and none of those fields change. Except on the
early return, the token rate is then recomputed when `elapsed > 0`. -/
def update_metrics (m : SessionMetrics) (elapsed : Nat) (phase : String)
    (read : SnapshotRead) : SessionMetrics :=
  let m1 := { m with elapsed_seconds := elapsed, phase := phase }
  match read with
  | .missing => m1
  | .malformed =>
    if elapsed > 0 then
      { m1 with tokens_per_minute := (m1.total_tokens : Rat) / ((elapsed : Rat) / 60) }
    else m1
  | .parsed payload num_files =>
    let m2 :=
      { m1 with
        total_tokens := payload.estimated_tokens
        tasks_completed := payload.current_step
        checkpoint_count := num_files
        errors_encountered := payload.errors.length
        lines_of_code :=
          if payload.git_checkpoint.isSome then 1000 + payload.current_step * 50
          else m1.lines_of_code }
    if elapsed > 0 then
      { m2 with tokens_per_minute := (m2.total_tokens : Rat) / ((elapsed : Rat) / 60) }
    else m2

/-- Most recent file-modification time among the checkpoint files (the
code sorts the files by mtime in descending order and takes the first). -/
def latest_mtime : List Int → Option Int
  | [] => none
  | m :: ms => some (ms.foldl max m)

/-- `MegaTestRunner._health_check`: healthy when the checkpoint directory
is missing or empty; otherwise healthy iff the newest checkpoint file was
modified at most 300 seconds ago (`now - mtime > 300` is unhealthy). The
method consults only mtimes; it never opens or parses a file. -/
def health_check (mtimes : List Int) (now : Int) : Bool :=
  match latest_mtime mtimes with
  | none => true
  | some mtime => if now - mtime > 300 then false else true

/-- `CheckpointManager.restore_checkpoint`: invokes the external
`selfware resume <task_id>` command; true iff it exits with status 0.
The embedding takes the external command's success as input. -/
def restore_checkpoint (resume_exit_ok : Bool) : Bool := resume_exit_ok

/-- `MegaTestRunner._attempt_recovery`: when a last checkpoint reference
exists, restores from it; otherwise returns false without invoking the
external resume command. The second component records whether the resume
command was invoked. -/
def attempt_recovery (last_checkpoint : Option String) (resume_exit_ok : Bool) :
    Bool × Bool :=
  match last_checkpoint with
  | some _ => (restore_checkpoint resume_exit_ok, true)
  | none => (false, false)

/-- Environment-determined events of one iteration of the `_run_phase`
loop: whether the checkpoint interval has elapsed (so the orchestrator
creates its own checkpoint), the result of the health check, and the exit
status the external resume command would report if invoked. -/
structure Tick where
  checkpoint_due : Bool
  healthy : Bool
  resume_exit_ok : Bool
  deriving DecidableEq, Repr

/-- Observable outcome of a `_run_phase` call: the returned boolean, how
many times `_attempt_recovery` was called, how many times the external
resume command was invoked, and the final last-checkpoint reference. -/
structure PhaseResult where
  ok : Bool
  recovery_attempts : Nat
  resume_invocations : Nat
  last_checkpoint : Option String
  deriving DecidableEq, Repr

/-- The last-checkpoint reference after one loop iteration: creating an
orchestrator checkpoint (when the interval is due) sets it. -/
def tick_checkpoint (t : Tick) (cp : Option String) : Option String :=
  if t.checkpoint_due then some "orchestrator_checkpoint" else cp

/-- `MegaTestRunner._run_phase` loop body, iterated over the ticks the
phase observes before its deadline. Per iteration: create a checkpoint
when the interval is due (setting the last-checkpoint reference), then
run the health check; when unhealthy, call `_attempt_recovery` once, and
when that fails return `False` immediately. -/
def run_phase_loop : List Tick → Option String → PhaseResult
  | [], cp => ⟨true, 0, 0, cp⟩
  | t :: rest, cp =>
    let cp' := tick_checkpoint t cp
    if t.healthy then
      run_phase_loop rest cp'
    else
      let recovery := attempt_recovery cp' t.resume_exit_ok
      let inv := if recovery.2 then 1 else 0
      if recovery.1 then
        let r := run_phase_loop rest cp'
        ⟨r.ok, r.recovery_attempts + 1, r.resume_invocations + inv, r.last_checkpoint⟩
      else
        ⟨false, 1, inv, cp'⟩

/-- The four phases of `MegaTestRunner.run` with their time budgets in
seconds: bootstrap 60*60, development 2*60*60, refinement 2*60*60,
finalization 60*60. -/
def session_phases : List (String × Nat) :=
  [("bootstrap", 60 * 60), ("development", 2 * 60 * 60),
   ("refinement", 2 * 60 * 60), ("finalization", 60 * 60)]

/-- Sequential execution of the phase list, threading the last-checkpoint
reference and accumulating wall time: a phase that runs to its deadline
contributes its full budget; a failing phase makes `run` return `False`
at once (remaining phases skipped, the aborted phase's partial time not
counted). `metrics.status` is set to "completed" only after all four
phases succeed; a phase failure returns without changing it from its
initial "running". -/
def run_go : List (String × Nat) → (String → List Tick) → Option String → Nat →
    Bool × String × Nat
  | [], _, _, acc => (true, "completed", acc)
  | (name, budget) :: rest, env, cp, acc =>
    let r := run_phase_loop (env name) cp
    if r.ok then run_go rest env r.last_checkpoint (acc + budget)
    else (false, "running", acc)

/-- `MegaTestRunner.run`: the four fixed phases starting with no
last-checkpoint reference; returns the success boolean, the final
`metrics.status`, and the total duration in seconds. -/
def run (env : String → List Tick) : Bool × String × Nat :=
  run_go session_phases env none 0

/-- One entry of `TestMonitor.metrics_history` (`record_snapshot`). -/
structure MetricsSnapshot where
  timestamp : Int
  metrics : SessionMetrics
  deriving DecidableEq, Repr

/-- Final test report (`TestMonitor.generate_report`'s dictionary). -/
structure Report where
  duration_seconds : Nat
  total_tokens : Nat
  final_coverage : Rat
  final_loc : Nat
  checkpoints : Nat
  errors : Nat
  status : String
  deriving DecidableEq, Repr

/-- `TestMonitor.generate_report`: `none` models the empty dict returned
for an empty history; otherwise every scalar field is drawn from the last
history entry and `checkpoints` is the history length. (The code also
binds the first entry, but uses no field of it.) -/
def generate_report : List MetricsSnapshot → Option Report
  | [] => none
  | h :: t =>
    let lastSnap := t.getLastD h
    some {
      duration_seconds := lastSnap.metrics.elapsed_seconds
      total_tokens := lastSnap.metrics.total_tokens
      final_coverage := lastSnap.metrics.test_coverage
      final_loc := lastSnap.metrics.lines_of_code
      checkpoints := (h :: t).length
      errors := lastSnap.metrics.errors_encountered
      status := lastSnap.metrics.status
    }

/-! ### Helper lemmas -/

/-- A sliced suffix guarded by a length comparison is a plain `drop`:
when the current list is not longer, both sides are empty. -/
lemma suffix_slice {α : Type} (cur base : List α) :
    (if cur.length > base.length then cur.drop base.length else []) =
      cur.drop base.length := by
  rcases le_or_lt cur.length base.length with h | h
  · rw [if_neg (by omega), (List.drop_eq_nil_iff).mpr h]
  · rw [if_pos h]

/-- Casting a truncated natural subtraction to `Int` gives the
nonnegative part of the integer difference. -/
lemma natSub_cast_max (a b : Nat) :
    ((a - b : Nat) : Int) = max 0 ((a : Int) - (b : Int)) := by
  rcases Nat.le_total a b with h | h
  · rw [Nat.sub_eq_zero_of_le h, (max_eq_left (by omega) : max (0 : Int) _ = 0)]
    rfl
  · rw [Nat.cast_sub h, max_eq_right (by omega)]

/-- Appending the guarded suffix slice to a prefix reconstructs the
longer list. -/
lemma prefix_extend {α : Type} (l l' : List α) (h : l <+: l') :
    l ++ (if l'.length > l.length then l'.drop l.length else []) = l' := by
  obtain ⟨t, rfl⟩ := h
  rcases eq_or_ne t [] with rfl | ht
  · simp
  · have hlt : l.length < (l ++ t).length := by
      have : 0 < t.length := List.length_pos.mpr ht
      simp only [List.length_append]
      omega
    rw [if_pos hlt, List.drop_left]

/-- Round trip of an optional scalar overwrite: recording the current
value only when changed and then overwriting only when recorded yields
the current value. -/
lemma overwrite_when_changed {α : Type} [DecidableEq α] (base cur : α) :
    (if cur ≠ base then some cur else none : Option α).getD base = cur := by
  rcases eq_or_ne cur base with h | h <;> simp [h]

/-- Round trip of the optional git marker, provided it does not revert
from present to absent. -/
lemma git_overwrite (base cur : Option GitCheckpointInfo)
    (h : cur = base ∨ cur ≠ none) :
    (if cur ≠ base then cur else none : Option GitCheckpointInfo).or base = cur := by
  rcases eq_or_ne cur base with hc | hc
  · simp [hc]
  · rcases h with h | h
    · exact absurd h hc
    · cases cur with
      | none => exact absurd rfl h
      | some g => simp [hc]

/-! ### Claims -/

/-- C2: `apply_delta` fails with the task-mismatch error exactly when the
task ids differ; otherwise it sets `version` to the delta's
`target_version`, takes `updated_at` from the delta, appends each `new_*`
list to the corresponding sequence, and overwrites each scalar field only
when the corresponding option is present. -/
theorem apply_delta_spec (t : TaskCheckpoint) (d : CheckpointDelta) :
    (apply_delta t d = Except.error "Delta task ID mismatch" ↔
      t.task_id ≠ d.task_id) ∧
    (t.task_id = d.task_id →
      ∃ r, apply_delta t d = Except.ok r ∧
        r.version = d.target_version ∧
        r.updated_at = d.updated_at ∧
        r.messages = t.messages ++ d.new_messages ∧
        r.memory_entries = t.memory_entries ++ d.new_memory_entries ∧
        r.tool_calls = t.tool_calls ++ d.new_tool_calls ∧
        r.errors = t.errors ++ d.new_errors ∧
        (∀ s, d.status = some s → r.status = s) ∧
        (d.status = none → r.status = t.status) ∧
        (∀ n, d.current_step = some n → r.current_step = n) ∧
        (d.current_step = none → r.current_step = t.current_step) ∧
        (∀ n, d.current_iteration = some n → r.current_iteration = n) ∧
        (d.current_iteration = none → r.current_iteration = t.current_iteration) ∧
        (∀ n, d.updated_tokens = some n → r.estimated_tokens = n) ∧
        (d.updated_tokens = none → r.estimated_tokens = t.estimated_tokens) ∧
        (∀ g, d.git_checkpoint = some g → r.git_checkpoint = some g) ∧
        (d.git_checkpoint = none → r.git_checkpoint = t.git_checkpoint)) := by
  constructor
  · by_cases h : t.task_id = d.task_id <;> simp [apply_delta, h]
  · intro h
    refine ⟨_, by rw [apply_delta, if_neg (by simp [h])], rfl, rfl, rfl, rfl, rfl,
      rfl, ?_, ?_, ?_, ?_, ?_, ?_, ?_, ?_, ?_, ?_⟩ <;>
      first
        | (intro x hx; simp [hx])
        | (intro hx; simp [hx])

/-- Checkpoint of end-to-end scenario C: version 3 with messages
`[m1, m2, m3]`. -/
def scenarioCp : TaskCheckpoint :=
  ⟨"task-c", 3, 30, .Running, 3, 1, ["m1", "m2", "m3"], [], [], [], 100, none⟩

/-- Delta of end-to-end scenario C: `target_version` 4 with
`new_messages = [m4]`. -/
def scenarioDelta : CheckpointDelta :=
  ⟨"task-c", 3, 4, 40, none, none, none, ["m4"], [], [], [], none, none⟩

/-- Witness for C2 at scenario C: matching ids, version 3 plus a delta to
version 4 appending `m4` yields version 4 and messages `[m1, m2, m3, m4]`. -/
theorem apply_delta_spec_witness :
    scenarioCp.task_id = scenarioDelta.task_id ∧
    (∃ r, apply_delta scenarioCp scenarioDelta = Except.ok r ∧
      r.version = 4 ∧ r.messages = ["m1", "m2", "m3", "m4"] ∧
      r.updated_at = 40) := by
  obtain ⟨r, hr, hv, hu, hm, -⟩ := (apply_delta_spec scenarioCp scenarioDelta).2 rfl
  exact ⟨rfl, r, hr, hv, hm, hu⟩

/-- C3: `compute_delta` returns `none` exactly when the task ids differ;
when they match, each `new_*` field is the suffix of the current sequence
past the base's length, whose length is `max 0` of the length
difference — never negative, never a truncation. -/
theorem compute_delta_spec (cur base : TaskCheckpoint) :
    (compute_delta cur base = none ↔ cur.task_id ≠ base.task_id) ∧
    (cur.task_id = base.task_id →
      ∃ d, compute_delta cur base = some d ∧
        d.new_messages = cur.messages.drop base.messages.length ∧
        d.new_memory_entries = cur.memory_entries.drop base.memory_entries.length ∧
        d.new_tool_calls = cur.tool_calls.drop base.tool_calls.length ∧
        d.new_errors = cur.errors.drop base.errors.length ∧
        (d.new_messages.length : Int) =
          max 0 ((cur.messages.length : Int) - (base.messages.length : Int)) ∧
        (d.new_memory_entries.length : Int) =
          max 0 ((cur.memory_entries.length : Int) -
            (base.memory_entries.length : Int)) ∧
        (d.new_tool_calls.length : Int) =
          max 0 ((cur.tool_calls.length : Int) - (base.tool_calls.length : Int)) ∧
        (d.new_errors.length : Int) =
          max 0 ((cur.errors.length : Int) - (base.errors.length : Int))) := by
  constructor
  · by_cases h : cur.task_id = base.task_id <;> simp [compute_delta, h]
  · intro h
    refine ⟨_, by rw [compute_delta, if_neg (by simp [h])], ?_, ?_, ?_, ?_,
        ?_, ?_, ?_, ?_⟩ <;>
      simp only [suffix_slice, List.length_drop, natSub_cast_max]

/-- Witness for C3: a matching pair where the base is a strict prefix in
one sequence and longer in none. -/
theorem compute_delta_spec_witness :
    scenarioCp.task_id = scenarioCp.task_id ∧
    (∃ d, compute_delta scenarioCp scenarioCp = some d ∧
      d.new_messages = scenarioCp.messages.drop scenarioCp.messages.length ∧
      d.new_messages.length = 0) := by
  obtain ⟨d, hd, hm, -, -, -, -, -, -, -⟩ :=
    (compute_delta_spec scenarioCp scenarioCp).2 rfl
  refine ⟨rfl, d, hd, hm, ?_⟩
  rw [hm]
  simp

/-- C9: with differing task ids, `apply_delta` returns the mismatch error
and produces no updated checkpoint: the id check precedes all mutation,
so the caller's checkpoint is left exactly as it was. -/
theorem apply_delta_mismatch_atomic (t : TaskCheckpoint) (d : CheckpointDelta)
    (h : t.task_id ≠ d.task_id) :
    apply_delta t d = Except.error "Delta task ID mismatch" ∧
    (∀ r, apply_delta t d ≠ Except.ok r) ∧
    (apply_delta t d).toOption = none := by
  rw [apply_delta, if_pos h]
  exact ⟨rfl, fun r hr => by simp at hr, rfl⟩

/-- Witness for C9: a delta aimed at task `other` cannot touch a
checkpoint of task `task-c`. -/
theorem apply_delta_mismatch_atomic_witness :
    scenarioCp.task_id ≠ "other" ∧
    apply_delta scenarioCp { scenarioDelta with task_id := "other" } =
      Except.error "Delta task ID mismatch" := by
  refine ⟨by decide, ?_⟩
  exact (apply_delta_mismatch_atomic scenarioCp
    { scenarioDelta with task_id := "other" } (by decide)).1

/-- C1 (amended): for checkpoints `c` and later checkpoints `c'` of the
same task whose sequence fields are prefix-extensions of `c`'s, and whose
optional git marker does not revert from present to absent, applying
`compute_delta c' c` to `c` reconstructs `c'` exactly. -/
theorem delta_roundtrip (c c' : TaskCheckpoint)
    (hid : c'.task_id = c.task_id)
    (_hv : c.version ≤ c'.version)
    (hm : c.messages <+: c'.messages)
    (hme : c.memory_entries <+: c'.memory_entries)
    (htc : c.tool_calls <+: c'.tool_calls)
    (herr : c.errors <+: c'.errors)
    (hgit : c'.git_checkpoint = c.git_checkpoint ∨ c'.git_checkpoint ≠ none) :
    ∃ d, compute_delta c' c = some d ∧ apply_delta c d = Except.ok c' := by
  rw [compute_delta, if_neg (by simp [hid])]
  refine ⟨_, rfl, ?_⟩
  rw [apply_delta, if_neg (by simp [hid])]
  refine congrArg Except.ok ?_
  exact TaskCheckpoint.ext hid.symm rfl rfl
    (overwrite_when_changed c.status c'.status)
    (overwrite_when_changed c.current_step c'.current_step)
    (overwrite_when_changed c.current_iteration c'.current_iteration)
    (prefix_extend c.messages c'.messages hm)
    (prefix_extend c.memory_entries c'.memory_entries hme)
    (prefix_extend c.tool_calls c'.tool_calls htc)
    (prefix_extend c.errors c'.errors herr)
    (overwrite_when_changed c.estimated_tokens c'.estimated_tokens)
    (git_overwrite c.git_checkpoint c'.git_checkpoint hgit)

/-- Base checkpoint of the C1 counterexample: carries a git marker. -/
def roundtripCexBase : TaskCheckpoint :=
  ⟨"task-1", 1, 0, .Running, 0, 0, [], [], [], [], 0, some ⟨"abc123"⟩⟩

/-- Later checkpoint of the C1 counterexample: same task, higher version,
all sequences prefix-extensions, but the git marker reverted to absent. -/
def roundtripCexCur : TaskCheckpoint :=
  ⟨"task-1", 2, 5, .Running, 0, 0, [], [], [], [], 0, none⟩

/-- C1 counterexample: a later checkpoint of the same task whose
sequences are prefix-extensions of the base's, yet applying
`compute_delta` over `apply_delta` does not reproduce it — the delta
cannot express clearing the git marker, so the reconstructed checkpoint
keeps the base's marker. -/
theorem delta_roundtrip_cex :
    roundtripCexBase.task_id = roundtripCexCur.task_id ∧
    roundtripCexBase.version ≤ roundtripCexCur.version ∧
    roundtripCexBase.messages <+: roundtripCexCur.messages ∧
    roundtripCexBase.memory_entries <+: roundtripCexCur.memory_entries ∧
    roundtripCexBase.tool_calls <+: roundtripCexCur.tool_calls ∧
    roundtripCexBase.errors <+: roundtripCexCur.errors ∧
    (compute_delta roundtripCexCur roundtripCexBase).bind
        (fun d => (apply_delta roundtripCexBase d).toOption) ≠
      some roundtripCexCur := by
  refine ⟨rfl, by decide, ⟨[], rfl⟩, ⟨[], rfl⟩, ⟨[], rfl⟩, ⟨[], rfl⟩, ?_⟩
  decide

/-- Base checkpoint of the C1 witness. -/
def roundtripWitBase : TaskCheckpoint :=
  ⟨"task-1", 3, 10, .Running, 1, 1, ["m1"], [], [], [], 5, none⟩

/-- Later checkpoint of the C1 witness: one more message, new status,
counters advanced, git marker newly set. -/
def roundtripWitCur : TaskCheckpoint :=
  ⟨"task-1", 4, 20, .Completed, 2, 2, ["m1", "m2"], [], [], [], 9,
    some ⟨"def456"⟩⟩

/-- Witness for C1 (amended) at a concrete pair of checkpoints. -/
theorem delta_roundtrip_witness :
    roundtripWitCur.task_id = roundtripWitBase.task_id ∧
    (∃ d, compute_delta roundtripWitCur roundtripWitBase = some d ∧
      apply_delta roundtripWitBase d = Except.ok roundtripWitCur) :=
  ⟨rfl, delta_roundtrip roundtripWitBase roundtripWitCur rfl (by decide)
    ⟨["m2"], rfl⟩ ⟨[], rfl⟩ ⟨[], rfl⟩ ⟨[], rfl⟩ (Or.inr (by decide))⟩

/-- C4: the health check is healthy when no checkpoint file exists, and
otherwise healthy exactly when the age of the most recently modified
checkpoint file is at most the 300-second staleness threshold; age 299 is
healthy and age 301 is unhealthy. -/
theorem health_check_spec :
    (∀ now : Int, health_check [] now = true) ∧
    (∀ (mtimes : List Int) (m now : Int), latest_mtime mtimes = some m →
      (health_check mtimes now = true ↔ now - m ≤ 300)) ∧
    (∀ m : Int, health_check [m] (m + 299) = true) ∧
    (∀ m : Int, health_check [m] (m + 301) = false) := by
  refine ⟨fun _ => rfl, fun mtimes m now hm => ?_, fun m => ?_, fun m => ?_⟩
  · rw [health_check, hm]
    show (if now - m > 300 then false else true) = true ↔ now - m ≤ 300
    split_ifs with h
    · simp
      omega
    · simp
      omega
  · show (if m + 299 - m > 300 then false else true) = true
    rw [if_neg (by omega)]
  · show (if m + 301 - m > 300 then false else true) = false
    rw [if_pos (by omega)]

/-- Witness for C4's staleness equivalence at a two-file directory. -/
theorem health_check_spec_witness :
    latest_mtime [10, 50] = some 50 ∧
    (health_check [10, 50] 200 = true ↔ (200 : Int) - 50 ≤ 300) :=
  ⟨rfl, health_check_spec.2.1 [10, 50] 50 200 rfl⟩

/-- C8: `generate_report` of an empty history is the empty report and is
total (never raises); on a non-empty history the `checkpoints` field is
the history length and the remaining fields are drawn from the history's
entries — each equal to the corresponding field of the last entry. -/
theorem generate_report_spec (h : MetricsSnapshot) (t : List MetricsSnapshot) :
    generate_report [] = none ∧
    (∃ r, generate_report (h :: t) = some r ∧
      r.checkpoints = (h :: t).length ∧
      r.duration_seconds = ((h :: t).getLastD h).metrics.elapsed_seconds ∧
      r.total_tokens = ((h :: t).getLastD h).metrics.total_tokens ∧
      r.final_coverage = ((h :: t).getLastD h).metrics.test_coverage ∧
      r.final_loc = ((h :: t).getLastD h).metrics.lines_of_code ∧
      r.errors = ((h :: t).getLastD h).metrics.errors_encountered ∧
      r.status = ((h :: t).getLastD h).metrics.status) := by
  refine ⟨rfl, _, rfl, rfl, ?_, ?_, ?_, ?_, ?_, ?_⟩ <;>
    rw [List.getLastD_cons]

/-- A phase all of whose ticks are healthy succeeds with no recovery
attempt and no resume invocation. -/
lemma run_phase_loop_all_healthy (ts : List Tick) (cp : Option String)
    (h : ∀ t ∈ ts, t.healthy = true) :
    (run_phase_loop ts cp).ok = true ∧
    (run_phase_loop ts cp).recovery_attempts = 0 ∧
    (run_phase_loop ts cp).resume_invocations = 0 := by
  induction ts generalizing cp with
  | nil => exact ⟨rfl, rfl, rfl⟩
  | cons t ts ih =>
    have ht : t.healthy = true := h t (by simp)
    have hrest : ∀ x ∈ ts, x.healthy = true := fun x hx => h x (by simp [hx])
    simpa [run_phase_loop, ht] using ih (tick_checkpoint t cp) hrest

/-- C5: per phase-loop iteration, recovery is attempted exactly once when
the health check is unhealthy and never when it is healthy; two
consecutive unhealthy ticks (the first recovery succeeding, so the loop
reaches the second) yield exactly two attempts; a failed recovery ends
the phase loop with failure after that single attempt. -/
theorem recovery_per_tick :
    (∀ (ts : List Tick) (cp : Option String), (∀ t ∈ ts, t.healthy = true) →
      (run_phase_loop ts cp).recovery_attempts = 0 ∧
      (run_phase_loop ts cp).ok = true) ∧
    (∀ (t : Tick) (ts : List Tick) (cp : Option String), t.healthy = true →
      run_phase_loop (t :: ts) cp = run_phase_loop ts (tick_checkpoint t cp)) ∧
    (∀ (t : Tick) (ts : List Tick) (cp : Option String), t.healthy = false →
      (attempt_recovery (tick_checkpoint t cp) t.resume_exit_ok).1 = true →
      (run_phase_loop (t :: ts) cp).recovery_attempts =
        (run_phase_loop ts (tick_checkpoint t cp)).recovery_attempts + 1) ∧
    (∀ (t : Tick) (ts : List Tick) (cp : Option String), t.healthy = false →
      (attempt_recovery (tick_checkpoint t cp) t.resume_exit_ok).1 = false →
      (run_phase_loop (t :: ts) cp).ok = false ∧
      (run_phase_loop (t :: ts) cp).recovery_attempts = 1) ∧
    (∀ (t1 t2 : Tick) (ts : List Tick) (cp : Option String),
      t1.healthy = false → t2.healthy = false →
      (attempt_recovery (tick_checkpoint t1 cp) t1.resume_exit_ok).1 = true →
      (attempt_recovery (tick_checkpoint t2 (tick_checkpoint t1 cp))
        t2.resume_exit_ok).1 = true →
      (run_phase_loop (t1 :: t2 :: ts) cp).recovery_attempts =
        (run_phase_loop ts
          (tick_checkpoint t2 (tick_checkpoint t1 cp))).recovery_attempts + 2) := by
  refine ⟨?_, ?_, ?_, ?_, ?_⟩
  · intro ts cp hall
    have h := run_phase_loop_all_healthy ts cp hall
    exact ⟨h.2.1, h.1⟩
  · intro t ts cp ht
    simp [run_phase_loop, ht]
  · intro t ts cp ht hrec
    simp [run_phase_loop, ht, hrec]
  · intro t ts cp ht hrec
    simp [run_phase_loop, ht, hrec]
  · intro t1 t2 ts cp h1 h2 hr1 hr2
    simp [run_phase_loop, h1, h2, hr1, hr2]

/-- An unhealthy tick at which the checkpoint interval is due and the
external resume command would succeed. -/
def unhealthyTick : Tick := ⟨true, false, true⟩

/-- An unhealthy tick with no checkpoint due and a failing resume
command. -/
def failTick : Tick := ⟨false, false, false⟩

/-- Witness for C5: two consecutive unhealthy ticks with successful
recoveries produce exactly two recovery attempts. -/
theorem recovery_per_tick_witness :
    unhealthyTick.healthy = false ∧
    (attempt_recovery (tick_checkpoint unhealthyTick none)
      unhealthyTick.resume_exit_ok).1 = true ∧
    (run_phase_loop [unhealthyTick, unhealthyTick] none).recovery_attempts =
      (run_phase_loop []
        (tick_checkpoint unhealthyTick
          (tick_checkpoint unhealthyTick none))).recovery_attempts + 2 :=
  ⟨rfl, rfl,
    recovery_per_tick.2.2.2.2 unhealthyTick unhealthyTick [] none rfl rfl rfl rfl⟩

/-- C6 (amended): a session whose four phases (budgets 3600, 7200, 7200,
3600 seconds) encounter no failures has a total duration of 6 hours'
worth of seconds (21600) — not 15 hours' worth — and ends completed. -/
theorem run_completed (env : String → List Tick)
    (h : ∀ name, ∀ t ∈ env name, t.healthy = true) :
    run env = (true, "completed", 6 * 60 * 60) := by
  have hok : ∀ (name : String) (cp : Option String),
      (run_phase_loop (env name) cp).ok = true :=
    fun name cp => (run_phase_loop_all_healthy (env name) cp (h name)).1
  simp [run, run_go, session_phases, hok]

/-- C6 counterexample: a failure-free session's duration is the sum of
the four budgets, 21600 seconds, which is not 15 hours' worth of
seconds. -/
theorem run_fifteen_hours_cex :
    run (fun _ => []) = (true, "completed", 21600) ∧
    (21600 : Nat) ≠ 15 * 60 * 60 := by
  exact ⟨rfl, by decide⟩

/-- Witness for C6 (amended): the session whose phases observe no ticks. -/
theorem run_completed_witness :
    run (fun _ => []) = (true, "completed", 6 * 60 * 60) :=
  run_completed (fun _ => []) (fun _ t ht => absurd ht (List.not_mem_nil t))

/-- C7 (amended): a malformed latest checkpoint file is absorbed: the
caught parse failure leaves every checkpoint-derived metric unchanged —
in particular `errors_encountered`, so it is NOT counted as an error
event — exactly as when no checkpoint exists; and the health check,
which reads only mtimes and never parses, reports a freshly written
(hence possibly partial) file healthy, like a missing one. -/
theorem malformed_absorbed (m : SessionMetrics) (elapsed : Nat) (phase : String)
    (now : Int) :
    (update_metrics m elapsed phase .malformed).errors_encountered =
      m.errors_encountered ∧
    (update_metrics m elapsed phase .malformed).total_tokens = m.total_tokens ∧
    (update_metrics m elapsed phase .malformed).tasks_completed =
      m.tasks_completed ∧
    (update_metrics m elapsed phase .malformed).checkpoint_count =
      m.checkpoint_count ∧
    (update_metrics m elapsed phase .malformed).lines_of_code =
      m.lines_of_code ∧
    (update_metrics m elapsed phase .malformed).status = m.status ∧
    (update_metrics m elapsed phase .malformed).errors_encountered =
      (update_metrics m elapsed phase .missing).errors_encountered ∧
    health_check [now] now = true ∧
    health_check [] now = true := by
  refine ⟨?_, ?_, ?_, ?_, ?_, ?_, ?_, ?_, rfl⟩ <;>
    first
      | (simp only [update_metrics]; split_ifs <;> rfl)
      | (show (if now - now > 300 then false else true) = true
         rw [if_neg (by omega)])

/-- C7 counterexample: a malformed snapshot read leaves the error count
at zero rather than counting an error event. -/
theorem malformed_not_counted_cex :
    (update_metrics SessionMetrics.init 0 "development"
      SnapshotRead.malformed).errors_encountered = 0 ∧
    SessionMetrics.init.errors_encountered = 0 :=
  ⟨rfl, rfl⟩

/-- C10: when a stall is detected while the orchestrator's
last-checkpoint reference is still unset, `_attempt_recovery` returns
false without invoking the external resume command, and the phase fails
with zero resume invocations. -/
theorem recovery_without_checkpoint :
    (∀ ok : Bool, attempt_recovery none ok = (false, false)) ∧
    (∀ (t : Tick) (ts : List Tick), t.healthy = false → t.checkpoint_due = false →
      run_phase_loop (t :: ts) none = ⟨false, 1, 0, none⟩) := by
  refine ⟨fun _ => rfl, fun t ts ht hdue => ?_⟩
  simp [run_phase_loop, tick_checkpoint, ht, hdue, attempt_recovery]

/-- Witness for C10: a single unhealthy tick with no checkpoint ever
created fails the phase with no resume invocation. -/
theorem recovery_without_checkpoint_witness :
    failTick.healthy = false ∧ failTick.checkpoint_due = false ∧
    run_phase_loop [failTick] none = ⟨false, 1, 0, none⟩ :=
  ⟨rfl, rfl, recovery_without_checkpoint.2 failTick [] rfl rfl⟩

end Selfware
